import Mathlib

set_option maxRecDepth 100000

/-!
Verification of the reply-generation pipeline of `src/agents/email_agent.py`.

The Python module is shallowly embedded below:

* `generate_smart_email_response` models the offline template generator of the
  same name (keyword intent detection, capitalized-word addressee extraction,
  tone/intent template lookup).
* `generate_email_response` models the pipeline entry point of the same name.
  Network effects are abstracted into an `Env` oracle (API-key presence, the
  clock, and the outcome of each completion attempt); Streamlit session state
  becomes an explicit `SessionState` record; the returned `RunResult` also
  records the observable trace (number of completion requests actually issued,
  the sleep durations, and the outcome of every issued attempt).
* `sanitize` models the `ResponseSanitizer` component, which exists only in the
  specification, not in the source tree.

Timestamps are integers (seconds); the machine floats of the source carry no
rounding-sensitive logic here (only subtraction and comparison with 60).
-/

/-- Python `sub in s` (substring containment) on character lists. -/
def listContains (pat : List Char) : List Char → Bool
  | [] => pat.isEmpty
  | c :: rest => pat.isPrefixOf (c :: rest) || listContains pat rest

/-- Python `sub in s` on strings. -/
def containsStr (s sub : String) : Bool := listContains sub.data s.data

/-- Python `s.lower()` (the texts involved are ASCII). -/
def lowerStr (s : String) : String := String.mk (s.data.map Char.toLower)

/-- Python `not s or not s.strip()`: the string is empty or whitespace-only. -/
def isBlank (s : String) : Bool := s.data.all (fun c => c.isWhitespace)

/-- Python `\w` (ASCII range, as in all texts this program handles). -/
def isWordChar (c : Char) : Bool := c.isAlpha || c.isDigit || c == '_'

/-- First match of the regex `\b[A-Z][a-z]+\b` in the character list, scanning
left to right; `prev` is the character preceding the current position (`none`
at the start of the text), used for the left word boundary. -/
def findCapWord : Option Char → List Char → Option String
  | _, [] => none
  | prev, c :: rest =>
    let canStart : Bool := match prev with
      | none => true
      | some p => !(isWordChar p)
    if canStart && c.isUpper then
      let run := rest.takeWhile (fun d => d.isLower)
      let after := rest.dropWhile (fun d => d.isLower)
      let boundaryOk : Bool := match after with
        | [] => true
        | d :: _ => !(isWordChar d)
      if !run.isEmpty && boundaryOk then some (String.mk (c :: run))
      else findCapWord (some c) rest
    else findCapWord (some c) rest

/-- `re.findall(r'\b[A-Z][a-z]+\b', email_text)` followed by
`potential_names[0] if potential_names else "there"`. -/
def extractSenderName (email_text : String) : String :=
  (findCapWord none email_text.data).getD "there"

/-- `is_meeting_request` of the source: keyword group on the lowered text. -/
def is_meeting_request (email_text : String) : Bool :=
  ["meeting", "call", "schedule", "appointment", "available"].any
    (fun w => containsStr (lowerStr email_text) w)

/-- `is_question` of the source: a question mark in the raw text, or a keyword
in the lowered text. -/
def is_question (email_text : String) : Bool :=
  containsStr email_text "?" ||
    ["question", "help", "how", "what", "when", "where", "why"].any
      (fun w => containsStr (lowerStr email_text) w)

/-- `is_complaint` of the source. -/
def is_complaint (email_text : String) : Bool :=
  ["problem", "issue", "wrong", "error", "disappointed", "unhappy"].any
    (fun w => containsStr (lowerStr email_text) w)

/-- `is_request` of the source. -/
def is_request (email_text : String) : Bool :=
  ["please", "could you", "would you", "can you", "need"].any
    (fun w => containsStr (lowerStr email_text) w)

/-- `is_thank_you` of the source. -/
def is_thank_you (email_text : String) : Bool :=
  ["thank", "grateful", "appreciate"].any
    (fun w => containsStr (lowerStr email_text) w)

/-- The `response_type` selection chain of `generate_smart_email_response`. -/
def detectIntent (email_text : String) : String :=
  if is_meeting_request email_text then "meeting_request"
  else if is_complaint email_text then "complaint"
  else if is_question email_text then "question"
  else if is_request email_text then "request"
  else if is_thank_you email_text then "thank_you"
  else "general"

/-- professional / meeting_request template (f-string of the source). -/
def prof_meeting (n : String) : String :=
  "Subject: Re: Meeting Request\n\nDear " ++ n ++ ",\n\nThank you for reaching out regarding a meeting. I would be happy to schedule time to discuss this further.\n\nI am available [insert your availability here] and can accommodate either in-person or virtual meetings as needed.\n\nPlease let me know what works best for your schedule, and I\x27ll send a calendar invitation.\n\nBest regards,\n[Your Name]"

/-- professional / question template. -/
def prof_question (n : String) : String :=
  "Subject: Re: Your Inquiry\n\nDear " ++ n ++ ",\n\nThank you for your email and for bringing this to my attention.\n\nRegarding your question about [main topic], I\x27d be happy to provide the information you need. [Insert your detailed response here]\n\nPlease don\x27t hesitate to reach out if you need any clarification or have additional questions.\n\nBest regards,\n[Your Name]"

/-- professional / complaint template. -/
def prof_complaint (n : String) : String :=
  "Subject: Re: Your Concern\n\nDear " ++ n ++ ",\n\nThank you for bringing this matter to my attention. I understand your concerns and take them seriously.\n\nI would like to address this issue promptly and ensure we find a satisfactory resolution. [Insert specific response to their complaint]\n\nI will personally follow up on this matter and keep you updated on our progress.\n\nSincerely,\n[Your Name]"

/-- professional / request template. -/
def prof_request (n : String) : String :=
  "Subject: Re: Your Request\n\nDear " ++ n ++ ",\n\nThank you for your email regarding [their request topic].\n\nI have reviewed your request and [will be able to accommodate/need to discuss alternatives]. [Insert specific response about their request]\n\nI will [follow up/provide the requested information/schedule time to discuss] by [timeframe].\n\nBest regards,\n[Your Name]"

/-- professional / thank_you template. -/
def prof_thanks (n : String) : String :=
  "Subject: Re: Thank You\n\nDear " ++ n ++ ",\n\nThank you for your kind words. I\x27m glad I could be of assistance.\n\nIt was a pleasure working with you on this matter. Please don\x27t hesitate to reach out if you need anything else in the future.\n\nBest regards,\n[Your Name]"

/-- professional / general template. -/
def prof_general (n : String) : String :=
  "Subject: Re: [Original Subject]\n\nDear " ++ n ++ ",\n\nThank you for your email. I appreciate you taking the time to reach out.\n\n[Insert your main response addressing their points here]\n\nPlease let me know if you have any questions or need further information.\n\nBest regards,\n[Your Name]"

/-- friendly / meeting_request template. -/
def friendly_meeting (n : String) : String :=
  "Subject: Re: Let\x27s Meet!\n\nHi " ++ n ++ "!\n\nThanks for reaching out about meeting up! I\x27d love to chat about this.\n\nI\x27m pretty flexible this week - how about [suggest specific times]? We could grab coffee or just do a quick call, whatever works better for you.\n\nLet me know what you think!\n\nBest,\n[Your Name]"

/-- friendly / question template. -/
def friendly_question (n : String) : String :=
  "Subject: Re: Your Question\n\nHi " ++ n ++ "!\n\nGreat question! I\x27m happy to help with this.\n\n[Insert your helpful response here]. I hope that clears things up, but feel free to ask if you need more details!\n\nHope you\x27re doing well!\n\n[Your Name]"

/-- friendly / general template. -/
def friendly_general (n : String) : String :=
  "Subject: Re: [Original Subject]\n\nHi " ++ n ++ "!\n\nThanks for your email! \n\n[Insert your friendly response here]\n\nHope to hear from you soon!\n\nBest,\n[Your Name]"

/-- The `responses` dictionary of the source, as an association list keyed by
tone, with each value an association list keyed by response type. -/
def responses (n : String) : List (String × List (String × String)) :=
  [("professional",
     [("meeting_request", prof_meeting n),
      ("question", prof_question n),
      ("complaint", prof_complaint n),
      ("request", prof_request n),
      ("thank_you", prof_thanks n),
      ("general", prof_general n)]),
   ("friendly",
     [("meeting_request", friendly_meeting n),
      ("question", friendly_question n),
      ("general", friendly_general n)])]

/-- The template lookup of `generate_smart_email_response`: `tone_key` falls
back to `"professional"` when absent from the dictionary, then the response
type falls back to `"general"` when the chosen tone has no template for it. -/
def pickResponse (d : List (String × List (String × String))) (tk0 rt0 : String) : String :=
  let tone_key := if (d.lookup tk0).isSome then tk0 else "professional"
  let tmap := (d.lookup tone_key).getD []
  let rt := if (tmap.lookup rt0).isSome then rt0 else "general"
  (tmap.lookup rt).getD ""

/-- `generate_smart_email_response(email_text, tone)` of the source: the
offline, network-free template generator. -/
def generate_smart_email_response (email_text tone : String) : String :=
  pickResponse (responses (extractSenderName email_text)) (lowerStr tone) (detectIntent email_text)

/-- Result of one remote completion attempt, as classified by the source's
exception handlers: a returned message, `openai.RateLimitError`, or any other
exception. -/
inductive Outcome where
  | success (text : String)
  | rateLimited
  | apiError (detail : String)
deriving DecidableEq

/-- True exactly on `success`. -/
def Outcome.isSuccess : Outcome → Bool
  | .success _ => true
  | _ => false

/-- True exactly on `rateLimited`. -/
def Outcome.isRateLimited : Outcome → Bool
  | .rateLimited => true
  | _ => false

/-- The mutable Streamlit session state the pipeline reads and writes: a field
is `none` when the corresponding key is absent from `st.session_state`. -/
structure SessionState where
  consecutive_failures : Option Nat
  last_request_time : Option ℤ
deriving DecidableEq

/-- The pipeline's environment: whether `OPENAI_API_KEY` is in `st.secrets`,
the clock value read during the rate-limiting check, the clock value recorded
just before attempt `i`, and the outcome of attempt `i`. -/
structure Env where
  hasKey : Bool
  now : ℤ
  attemptTime : Nat → ℤ
  outcome : Nat → Outcome

/-- Observable result of one call to `generate_email_response`: the returned
value (`none` models Python `None`), the final session state, the number of
completion requests actually issued, the sleep durations in seconds in order,
and the outcomes of the issued attempts in order. -/
structure RunResult where
  ret : Option String
  state : SessionState
  apiCalls : Nat
  sleeps : List Nat
  outcomes : List Outcome
deriving DecidableEq

/-- The `for attempt in range(max_retries)` loop of `generate_email_response`,
with `fuel` the number of remaining iterations and `a` the current value of
`attempt`; called from the top level with `fuel = max_retries`, `a = 0`.
Falling off the end of the loop is the final `return None` of the source. -/
def attemptLoop (env : Env) (email_text tone : String) (use_fallback : Bool)
    (max_retries : Nat) : Nat → Nat → SessionState → RunResult
  | 0, _, s => ⟨none, s, 0, [], []⟩
  | fuel + 1, a, s =>
    if env.hasKey then
      match env.outcome a with
      | .success text =>
        ⟨some text, ⟨some 0, some (env.attemptTime a)⟩, 1, [], [.success text]⟩
      | .rateLimited =>
        if a < max_retries - 1 then
          let r := attemptLoop env email_text tone use_fallback max_retries fuel (a + 1)
            ⟨some (s.consecutive_failures.getD 0 + 1), some (env.attemptTime a)⟩
          ⟨r.ret, r.state, r.apiCalls + 1, 30 * (a + 1) :: r.sleeps, .rateLimited :: r.outcomes⟩
        else if use_fallback then
          ⟨some (generate_smart_email_response email_text tone),
            ⟨some (s.consecutive_failures.getD 0 + 1), some (env.attemptTime a)⟩, 1, [], [.rateLimited]⟩
        else
          ⟨none, ⟨some (s.consecutive_failures.getD 0 + 1), some (env.attemptTime a)⟩, 1, [], [.rateLimited]⟩
      | .apiError d =>
        if use_fallback && a == max_retries - 1 then
          ⟨some (generate_smart_email_response email_text tone),
            ⟨s.consecutive_failures, some (env.attemptTime a)⟩, 1, [], [.apiError d]⟩
        else
          let r := attemptLoop env email_text tone use_fallback max_retries fuel (a + 1)
            ⟨s.consecutive_failures, some (env.attemptTime a)⟩
          ⟨r.ret, r.state, r.apiCalls + 1, r.sleeps, .apiError d :: r.outcomes⟩
    else
      if use_fallback then ⟨some (generate_smart_email_response email_text tone), s, 0, [], []⟩
      else ⟨none, s, 0, [], []⟩

/-- The guard `'consecutive_failures' in st.session_state and
st.session_state.consecutive_failures >= 3`. -/
def failuresAtLeast3 (cf : Option Nat) : Bool :=
  match cf with
  | some n => decide (3 ≤ n)
  | none => false

/-- `generate_email_response(email_text, tone, max_retries, use_fallback)` of
the source, as a function of the environment and the incoming session state. -/
def generate_email_response (env : Env) (st : SessionState) (email_text tone : String)
    (max_retries : Nat) (use_fallback : Bool) : RunResult :=
  if isBlank email_text then ⟨none, st, 0, [], []⟩
  else
    let tone1 := if isBlank tone then "professional" else tone
    if failuresAtLeast3 st.consecutive_failures then
      ⟨some (generate_smart_email_response email_text tone1), st, 0, [], []⟩
    else
      match st.last_request_time with
      | some t =>
        if env.now - t < 60 then
          if use_fallback then
            ⟨some (generate_smart_email_response email_text tone1), st, 0, [], []⟩
          else ⟨none, st, 0, [], []⟩
        else attemptLoop env email_text tone1 use_fallback max_retries max_retries 0 st
      | none => attemptLoop env email_text tone1 use_fallback max_retries max_retries 0 st

/-- Modelled from the spec: the source tree has no `ResponseSanitizer`
component, so its strip-list is taken from the specification, whose only
concretely named preamble phrase is the one in its sanitizer test. -/
def stripPhrases : List String := ["Here is a potential reply to the email:\n"]

/-- Modelled from the spec: the literal placeholder signature token the model
is told to end with. -/
def placeholderToken : String := "[Your Name]"

/-- Modelled from the spec: strip the first matching phrase of the fixed,
ordered strip-list when the text starts with it; stop at the first match. -/
def stripOnce (s : String) : String :=
  match stripPhrases.find? (fun p => p.data.isPrefixOf s.data) with
  | some p => String.mk (s.data.drop p.data.length)
  | none => s

/-- Modelled from the spec: `ResponseSanitizer.sanitize(raw, sender_name)` —
strip one leading boilerplate phrase, then replace the placeholder signature
token with the sender name when one is provided and the token is present. -/
def sanitize (raw : String) (sender_name : Option String) : String :=
  let s := stripOnce raw
  match sender_name with
  | some n => if containsStr s placeholderToken then s.replace placeholderToken n else s
  | none => s

/-- A deterministic environment in which every completion attempt hits the
rate limit; used for concrete counterexamples and witnesses. -/
def envRL : Env := ⟨true, 0, fun _ => 0, fun _ => .rateLimited⟩

/-- A fresh session state: neither session key is set yet. -/
def st0 : SessionState := ⟨none, none⟩

/-- The nine canned templates, at a given addressee name. -/
def allTemplates (n : String) : List String :=
  [prof_meeting n, prof_question n, prof_complaint n, prof_request n, prof_thanks n,
   prof_general n, friendly_meeting n, friendly_question n, friendly_general n]

lemma template_affix {a n b : String}
    (ha : "Subject: Re:".data <+: a.data) (hb : "[Your Name]".data <:+ b.data) :
    "Subject: Re:".data <+: (a ++ n ++ b).data ∧ "[Your Name]".data <:+ (a ++ n ++ b).data := by
  constructor
  · have h : (a ++ n ++ b).data = a.data ++ (n.data ++ b.data) := by
      simp [String.data_append]
    rw [h]
    exact ha.trans (List.prefix_append _ _)
  · have h : (a ++ n ++ b).data = a.data ++ n.data ++ b.data := by
      simp [String.data_append]
    rw [h]
    exact hb.trans (List.suffix_append _ _)

lemma detect_cases (e : String) :
    detectIntent e = "meeting_request" ∨ detectIntent e = "complaint" ∨
    detectIntent e = "question" ∨ detectIntent e = "request" ∨
    detectIntent e = "thank_you" ∨ detectIntent e = "general" := by
  unfold detectIntent
  split_ifs <;> simp

lemma lookup_responses_none (n k : String) (h1 : k ≠ "professional") (h2 : k ≠ "friendly") :
    (responses n).lookup k = none := by
  have e1 : (k == "professional") = false := beq_eq_false_iff_ne.mpr h1
  have e2 : (k == "friendly") = false := beq_eq_false_iff_ne.mpr h2
  simp [responses, List.lookup, e1, e2]

lemma pickResponse_unrec (n k rt : String) (h1 : k ≠ "professional") (h2 : k ≠ "friendly") :
    pickResponse (responses n) k rt = pickResponse (responses n) "professional" rt := by
  unfold pickResponse
  rw [lookup_responses_none n k h1 h2]
  have hp : (List.lookup "professional" (responses n)).isSome = true := rfl
  simp only [Option.isSome_none, Bool.false_eq_true, if_false, hp, if_true]

lemma smart_mem (e t : String) :
    generate_smart_email_response e t ∈ allTemplates (extractSenderName e) := by
  unfold generate_smart_email_response
  by_cases h1 : lowerStr t = "professional"
  · rw [h1]
    rcases detect_cases e with h|h|h|h|h|h <;> rw [h]
    · exact List.Mem.head _
    · exact List.Mem.tail _ (List.Mem.tail _ (List.Mem.head _))
    · exact List.Mem.tail _ (List.Mem.head _)
    · exact List.Mem.tail _ (List.Mem.tail _ (List.Mem.tail _ (List.Mem.head _)))
    · exact List.Mem.tail _ (List.Mem.tail _ (List.Mem.tail _ (List.Mem.tail _ (List.Mem.head _))))
    · exact List.Mem.tail _ (List.Mem.tail _ (List.Mem.tail _ (List.Mem.tail _ (List.Mem.tail _ (List.Mem.head _)))))
  · by_cases h2 : lowerStr t = "friendly"
    · rw [h2]
      rcases detect_cases e with h|h|h|h|h|h <;> rw [h]
      · exact List.Mem.tail _ (List.Mem.tail _ (List.Mem.tail _ (List.Mem.tail _ (List.Mem.tail _ (List.Mem.tail _ (List.Mem.head _))))))
      · exact List.Mem.tail _ (List.Mem.tail _ (List.Mem.tail _ (List.Mem.tail _ (List.Mem.tail _ (List.Mem.tail _ (List.Mem.tail _ (List.Mem.tail _ (List.Mem.head _))))))))
      · exact List.Mem.tail _ (List.Mem.tail _ (List.Mem.tail _ (List.Mem.tail _ (List.Mem.tail _ (List.Mem.tail _ (List.Mem.tail _ (List.Mem.head _)))))))
      · exact List.Mem.tail _ (List.Mem.tail _ (List.Mem.tail _ (List.Mem.tail _ (List.Mem.tail _ (List.Mem.tail _ (List.Mem.tail _ (List.Mem.tail _ (List.Mem.head _))))))))
      · exact List.Mem.tail _ (List.Mem.tail _ (List.Mem.tail _ (List.Mem.tail _ (List.Mem.tail _ (List.Mem.tail _ (List.Mem.tail _ (List.Mem.tail _ (List.Mem.head _))))))))
      · exact List.Mem.tail _ (List.Mem.tail _ (List.Mem.tail _ (List.Mem.tail _ (List.Mem.tail _ (List.Mem.tail _ (List.Mem.tail _ (List.Mem.tail _ (List.Mem.head _))))))))
    · rw [pickResponse_unrec _ _ _ h1 h2]
      rcases detect_cases e with h|h|h|h|h|h <;> rw [h]
      · exact List.Mem.head _
      · exact List.Mem.tail _ (List.Mem.tail _ (List.Mem.head _))
      · exact List.Mem.tail _ (List.Mem.head _)
      · exact List.Mem.tail _ (List.Mem.tail _ (List.Mem.tail _ (List.Mem.head _)))
      · exact List.Mem.tail _ (List.Mem.tail _ (List.Mem.tail _ (List.Mem.tail _ (List.Mem.head _))))
      · exact List.Mem.tail _ (List.Mem.tail _ (List.Mem.tail _ (List.Mem.tail _ (List.Mem.tail _ (List.Mem.head _)))))

lemma smart_affix (e t : String) :
    "Subject: Re:".data <+: (generate_smart_email_response e t).data ∧
    "[Your Name]".data <:+ (generate_smart_email_response e t).data := by
  have h := smart_mem e t
  simp only [allTemplates, List.mem_cons, List.not_mem_nil, or_false] at h
  rcases h with h|h|h|h|h|h|h|h|h <;> rw [h] <;>
    simp only [prof_meeting, prof_question, prof_complaint, prof_request, prof_thanks,
      prof_general, friendly_meeting, friendly_question, friendly_general] <;>
    refine template_affix ?_ ?_ <;> decide

lemma smart_ne_empty (e t : String) : generate_smart_email_response e t ≠ "" := by
  intro hc
  have h := (smart_affix e t).1
  rw [hc] at h
  have hl := h.length_le
  simp at hl

lemma cf_combine_rl (cf0 : Option Nat) (r : RunResult)
    (h : r.state.consecutive_failures =
      (if r.outcomes.any Outcome.isSuccess then some 0
       else if r.outcomes.countP Outcome.isRateLimited = 0 then some (cf0.getD 0 + 1)
       else some (cf0.getD 0 + 1 + r.outcomes.countP Outcome.isRateLimited))) :
    r.state.consecutive_failures =
      (if (Outcome.rateLimited :: r.outcomes).any Outcome.isSuccess then some 0
       else if (Outcome.rateLimited :: r.outcomes).countP Outcome.isRateLimited = 0 then cf0
       else some (cf0.getD 0 +
         (Outcome.rateLimited :: r.outcomes).countP Outcome.isRateLimited)) := by
  simp only [List.any_cons, List.countP_cons, Outcome.isSuccess, Outcome.isRateLimited,
    Bool.false_or, if_true, ite_true] at h ⊢
  rw [h]
  cases hA : r.outcomes.any Outcome.isSuccess
  · simp only [Bool.false_eq_true, if_false, ite_false]
    by_cases hC : r.outcomes.countP Outcome.isRateLimited = 0 <;>
      · simp only [hC, if_true, ite_true, if_false, ite_false]
        split_ifs <;> simp_all <;> omega
  · simp

lemma cf_combine_err (d : String) (cf0 : Option Nat) (r : RunResult)
    (h : r.state.consecutive_failures =
      (if r.outcomes.any Outcome.isSuccess then some 0
       else if r.outcomes.countP Outcome.isRateLimited = 0 then cf0
       else some (cf0.getD 0 + r.outcomes.countP Outcome.isRateLimited))) :
    r.state.consecutive_failures =
      (if (Outcome.apiError d :: r.outcomes).any Outcome.isSuccess then some 0
       else if (Outcome.apiError d :: r.outcomes).countP Outcome.isRateLimited = 0 then cf0
       else some (cf0.getD 0 +
         (Outcome.apiError d :: r.outcomes).countP Outcome.isRateLimited)) := by
  simpa only [List.any_cons, List.countP_cons, Outcome.isSuccess, Outcome.isRateLimited,
    Bool.false_or, if_false, ite_false, add_zero] using h

lemma attemptLoop_cf (env : Env) (email tone : String) (fb : Bool) (mr : Nat) :
    ∀ fuel a s,
      (attemptLoop env email tone fb mr fuel a s).state.consecutive_failures =
        (if (attemptLoop env email tone fb mr fuel a s).outcomes.any Outcome.isSuccess then some 0
         else if (attemptLoop env email tone fb mr fuel a s).outcomes.countP Outcome.isRateLimited = 0 then
           s.consecutive_failures
         else some (s.consecutive_failures.getD 0 +
           (attemptLoop env email tone fb mr fuel a s).outcomes.countP Outcome.isRateLimited)) := by
  intro fuel
  induction fuel with
  | zero => intro a s; simp [attemptLoop]
  | succ fuel ih =>
    intro a s
    by_cases hk : env.hasKey
    · rcases ho : env.outcome a with text | _ | d
      · simp [attemptLoop, hk, ho, Outcome.isSuccess]
      · by_cases hlt : a < mr - 1
        · simp only [attemptLoop, hk, ho, hlt, if_true, ite_true]
          exact cf_combine_rl s.consecutive_failures _ (ih (a + 1)
            ⟨some (s.consecutive_failures.getD 0 + 1), some (env.attemptTime a)⟩)
        · by_cases hf : fb
          · simp [attemptLoop, hk, ho, hlt, hf, Outcome.isSuccess, Outcome.isRateLimited]
          · simp [attemptLoop, hk, ho, hlt, hf, Outcome.isSuccess, Outcome.isRateLimited]
      · by_cases hfe : (fb && a == mr - 1) = true
        · simp [attemptLoop, hk, ho, hfe, Outcome.isSuccess, Outcome.isRateLimited]
        · simp only [attemptLoop, hk, ho, hfe, if_false, ite_false, Bool.false_eq_true]
          exact cf_combine_err d s.consecutive_failures _ (ih (a + 1)
            ⟨s.consecutive_failures, some (env.attemptTime a)⟩)
    · by_cases hf : fb <;>
        simp [attemptLoop, hk, hf]

lemma attemptLoop_sleeps (env : Env) (email tone : String) (fb : Bool) (mr : Nat) :
    ∀ fuel a s,
      List.Chain' (· < ·) ((attemptLoop env email tone fb mr fuel a s).sleeps) ∧
      ∀ d ∈ (attemptLoop env email tone fb mr fuel a s).sleeps,
        30 * (a + 1) ≤ d ∧ ∃ k, k + 1 < mr ∧ d = 30 * (k + 1) := by
  intro fuel
  induction fuel with
  | zero => intro a s; simp [attemptLoop]
  | succ fuel ih =>
    intro a s
    by_cases hk : env.hasKey
    · rcases ho : env.outcome a with text | _ | d
      · simp [attemptLoop, hk, ho]
      · by_cases hlt : a < mr - 1
        · have h := ih (a + 1)
            ⟨some (s.consecutive_failures.getD 0 + 1), some (env.attemptTime a)⟩
          simp only [attemptLoop, hk, ho, hlt, if_true, ite_true] at h ⊢
          obtain ⟨hch, hmem⟩ := h
          constructor
          · rw [List.chain'_cons']
            refine ⟨?_, hch⟩
            intro y hy
            have hy' := hmem y (List.mem_of_mem_head? hy)
            have := hy'.1
            omega
          · intro d hd
            rcases List.mem_cons.mp hd with rfl | hd'
            · exact ⟨le_refl _, a, by omega, rfl⟩
            · have := hmem d hd'
              exact ⟨by omega, this.2⟩
        · by_cases hf : fb <;> simp [attemptLoop, hk, ho, hlt, hf]
      · by_cases hfe : (fb && a == mr - 1) = true
        · simp [attemptLoop, hk, ho, hfe]
        · have h := ih (a + 1) ⟨s.consecutive_failures, some (env.attemptTime a)⟩
          simp only [attemptLoop, hk, ho, hfe, if_false, ite_false, Bool.false_eq_true] at h ⊢
          obtain ⟨hch, hmem⟩ := h
          refine ⟨hch, ?_⟩
          intro d hd
          have := hmem d hd
          exact ⟨by omega, this.2⟩
    · by_cases hf : fb <;> simp [attemptLoop, hk, hf]

lemma attemptLoop_ret (env : Env) (email tone : String) (mr : Nat)
    (hne : ∀ i t, env.outcome i = .success t → t ≠ "") :
    ∀ fuel a s, 1 ≤ fuel → a + fuel = mr →
      ∃ x, (attemptLoop env email tone true mr fuel a s).ret = some x ∧ x ≠ "" := by
  intro fuel
  induction fuel with
  | zero => intro a s h0 _; omega
  | succ fuel ih =>
    intro a s _ hsum
    by_cases hk : env.hasKey
    · rcases ho : env.outcome a with text | _ | d
      · refine ⟨text, ?_, hne a text ho⟩
        simp [attemptLoop, hk, ho]
      · by_cases hlt : a < mr - 1
        · have hfuel : 1 ≤ fuel := by omega
          obtain ⟨x, hx, hxne⟩ := ih (a + 1)
            ⟨some (s.consecutive_failures.getD 0 + 1), some (env.attemptTime a)⟩
            hfuel (by omega)
          refine ⟨x, ?_, hxne⟩
          simp only [attemptLoop, hk, ho, hlt, if_true, ite_true]
          exact hx
        · refine ⟨generate_smart_email_response email tone, ?_, smart_ne_empty email tone⟩
          simp [attemptLoop, hk, ho, hlt]
      · by_cases heq : a = mr - 1
        · refine ⟨generate_smart_email_response email tone, ?_, smart_ne_empty email tone⟩
          have hbe : (true && a == mr - 1) = true := by simp [heq]
          simp [attemptLoop, hk, ho, hbe]
        · have hfuel : 1 ≤ fuel := by omega
          obtain ⟨x, hx, hxne⟩ := ih (a + 1) ⟨s.consecutive_failures, some (env.attemptTime a)⟩
            hfuel (by omega)
          refine ⟨x, ?_, hxne⟩
          have hbe : (true && a == mr - 1) = false := by
            simp [heq]
          simp only [attemptLoop, hk, ho, hbe, if_false, ite_false, Bool.false_eq_true]
          exact hx
    · refine ⟨generate_smart_email_response email tone, ?_, smart_ne_empty email tone⟩
      simp [attemptLoop, hk]

/-- Claim C1, counterexample: on blank email text the pipeline returns Python
`None`, not a non-empty string, so the claim fails as stated on that input. -/
theorem c1_counterexample_blank_returns_none :
    (generate_email_response envRL st0 "" "professional" 2 true).ret = none := by
  decide

/-- Claim C1, amended: for non-blank email text, with the fallback enabled,
at least one retry allowed, and every remote success carrying non-empty text,
`generate_email_response` returns a non-empty string (the embedding is total,
so no exception can escape). -/
theorem c1_amended_nonempty_no_raise (env : Env) (st : SessionState)
    (email_text tone : String) (mr : Nat)
    (hmail : isBlank email_text = false) (hmr : 1 ≤ mr)
    (hsucc : ∀ i t, env.outcome i = Outcome.success t → t ≠ "") :
    ∃ x, (generate_email_response env st email_text tone mr true).ret = some x ∧ x ≠ "" := by
  unfold generate_email_response
  by_cases h3 : failuresAtLeast3 st.consecutive_failures
  · refine ⟨generate_smart_email_response email_text
      (if isBlank tone then "professional" else tone), ?_, smart_ne_empty _ _⟩
    simp [hmail, h3]
  · cases hlrt : st.last_request_time with
    | none =>
      simp only [hmail, h3, hlrt, Bool.false_eq_true, if_false, ite_false]
      exact attemptLoop_ret env email_text _ mr hsucc mr 0 st hmr (by omega)
    | some t =>
      by_cases ht : env.now - t < 60
      · refine ⟨generate_smart_email_response email_text
          (if isBlank tone then "professional" else tone), ?_, smart_ne_empty _ _⟩
        simp [hmail, h3, hlrt, ht]
      · simp only [hmail, h3, hlrt, ht, Bool.false_eq_true, if_false, ite_false]
        exact attemptLoop_ret env email_text _ mr hsucc mr 0 st hmr (by omega)

/-- Claim C1, witness for the amended theorem at a concrete input. -/
theorem c1_amended_nonempty_no_raise_witness :
    ∃ x, (generate_email_response envRL st0 "Hello" "professional" 2 true).ret = some x ∧ x ≠ "" :=
  c1_amended_nonempty_no_raise envRL st0 "Hello" "professional" 2 (by decide) (by decide)
    (fun i t h => by simp [envRL] at h)

/-- Claim C2, counterexample: with `consecutive_failures = 3` but blank email
text, the call returns `None` rather than the offline template result, so the
claim fails as stated on that input (no remote request is made, though). -/
theorem c2_counterexample_blank_input :
    (generate_email_response envRL ⟨some 3, none⟩ "" "professional" 2 true).ret ≠
      some (generate_smart_email_response "" "professional") := by
  decide

/-- Claim C2, amended: provided the email text is non-blank, a call starting
with `consecutive_failures ≥ 3` issues no completion request, returns exactly
the offline template generator's result, and leaves the session state (both
throttle fields) unchanged. -/
theorem c2_amended_throttled_bypasses_remote (env : Env) (st : SessionState)
    (email_text tone : String) (mr : Nat) (fb : Bool) (n : Nat)
    (hcf : st.consecutive_failures = some n) (h3 : 3 ≤ n)
    (hmail : isBlank email_text = false) :
    generate_email_response env st email_text tone mr fb =
      ⟨some (generate_smart_email_response email_text
        (if isBlank tone then "professional" else tone)), st, 0, [], []⟩ := by
  have h : failuresAtLeast3 st.consecutive_failures = true := by
    rw [hcf]
    simpa [failuresAtLeast3] using h3
  unfold generate_email_response
  simp [hmail, h]

/-- Claim C2, witness for the amended theorem at a concrete input. -/
theorem c2_amended_throttled_bypasses_remote_witness :
    generate_email_response envRL ⟨some 3, none⟩ "Hello" "professional" 2 true =
      ⟨some (generate_smart_email_response "Hello"
        (if isBlank "professional" then "professional" else "professional")),
        ⟨some 3, none⟩, 0, [], []⟩ :=
  c2_amended_throttled_bypasses_remote envRL ⟨some 3, none⟩ "Hello" "professional" 2 true 3
    rfl (by decide) (by decide)

/-- Claim C3, counterexample: with four attempts all rate-limited, the three
sleeps are 30, 60, 90 seconds — the third sleep is `30 * 3`, not the claimed
`base_delay * 2 ^ (attempt - 1) = 30 * 4 = 120`. -/
theorem c3_counterexample_linear_not_exponential :
    (generate_email_response envRL st0 "Hello" "professional" 4 true).sleeps = [30, 60, 90] ∧
    ¬((90 : Nat) = 30 * 2 ^ (3 - 1)) := by
  exact ⟨by decide, by decide⟩

/-- Claim C3, amended: every sleep of a call equals `30 * attempt` seconds
(linear backoff, attempts numbered from 1, only when attempts remain), and
across successive retries within one call the delays are strictly increasing. -/
theorem c3_amended_linear_backoff_increasing (env : Env) (st : SessionState)
    (email_text tone : String) (mr : Nat) (fb : Bool) :
    List.Chain' (· < ·) ((generate_email_response env st email_text tone mr fb).sleeps) ∧
    ∀ d ∈ (generate_email_response env st email_text tone mr fb).sleeps,
      ∃ k, k + 1 < mr ∧ d = 30 * (k + 1) := by
  unfold generate_email_response
  by_cases hb : isBlank email_text
  · simp [hb]
  · by_cases h3 : failuresAtLeast3 st.consecutive_failures
    · simp [hb, h3]
    · cases hlrt : st.last_request_time with
      | none =>
        simp only [hb, h3, hlrt, Bool.false_eq_true, if_false, ite_false]
        have h := attemptLoop_sleeps env email_text
          (if isBlank tone then "professional" else tone) fb mr mr 0 st
        exact ⟨h.1, fun d hd => (h.2 d hd).2⟩
      | some t =>
        by_cases ht : env.now - t < 60
        · by_cases hf : fb <;> simp [hb, h3, hlrt, ht, hf]
        · simp only [hb, h3, hlrt, ht, Bool.false_eq_true, if_false, ite_false]
          have h := attemptLoop_sleeps env email_text
            (if isBlank tone then "professional" else tone) fb mr mr 0 st
          exact ⟨h.1, fun d hd => (h.2 d hd).2⟩

/-- Claim C3, witness for the amended theorem at a concrete input. -/
theorem c3_amended_linear_backoff_increasing_witness :
    List.Chain' (· < ·) ((generate_email_response envRL st0 "Hello" "professional" 4 true).sleeps) :=
  (c3_amended_linear_backoff_increasing envRL st0 "Hello" "professional" 4 true).1

/-- Claim C4: the throttle counter discipline — the final value of
`consecutive_failures` is 0 after a successful completion, is unchanged when
no attempt was rate-limited (blank input, bypasses, only non-rate-limit
errors), and otherwise grows by exactly the number of rate-limited attempts
of the call. -/
theorem c4_counter_discipline (env : Env) (st : SessionState) (email_text tone : String)
    (mr : Nat) (fb : Bool) :
    (generate_email_response env st email_text tone mr fb).state.consecutive_failures =
      (if (generate_email_response env st email_text tone mr fb).outcomes.any Outcome.isSuccess then
         some 0
       else if (generate_email_response env st email_text tone mr fb).outcomes.countP
           Outcome.isRateLimited = 0 then
         st.consecutive_failures
       else some (st.consecutive_failures.getD 0 +
         (generate_email_response env st email_text tone mr fb).outcomes.countP
           Outcome.isRateLimited)) := by
  unfold generate_email_response
  by_cases hb : isBlank email_text
  · simp [hb]
  · by_cases h3 : failuresAtLeast3 st.consecutive_failures
    · simp [hb, h3]
    · cases hlrt : st.last_request_time with
      | none =>
        simp only [hb, h3, hlrt, Bool.false_eq_true, if_false, ite_false]
        exact attemptLoop_cf env email_text
          (if isBlank tone then "professional" else tone) fb mr mr 0 st
      | some t =>
        by_cases ht : env.now - t < 60
        · by_cases hf : fb <;> simp [hb, h3, hlrt, ht, hf]
        · simp only [hb, h3, hlrt, ht, Bool.false_eq_true, if_false, ite_false]
          exact attemptLoop_cf env email_text
            (if isBlank tone then "professional" else tone) fb mr mr 0 st

/-- Claim C5: intent classification follows the fixed precedence
meeting_request > complaint > question > request > thank_you > general, first
match wins; and the boundary email "Can we schedule a call tomorrow?" with
tone "friendly" selects the friendly meeting_request template (addressee
"Can"), not the question template, despite its question mark. -/
theorem c5_intent_precedence (e : String) :
    (is_meeting_request e = true → detectIntent e = "meeting_request") ∧
    (is_meeting_request e = false → is_complaint e = true → detectIntent e = "complaint") ∧
    (is_meeting_request e = false → is_complaint e = false → is_question e = true →
      detectIntent e = "question") ∧
    (is_meeting_request e = false → is_complaint e = false → is_question e = false →
      is_request e = true → detectIntent e = "request") ∧
    (is_meeting_request e = false → is_complaint e = false → is_question e = false →
      is_request e = false → is_thank_you e = true → detectIntent e = "thank_you") ∧
    (is_meeting_request e = false → is_complaint e = false → is_question e = false →
      is_request e = false → is_thank_you e = false → detectIntent e = "general") ∧
    (e = "Can we schedule a call tomorrow?" →
      detectIntent e = "meeting_request" ∧
      generate_smart_email_response e "friendly" = friendly_meeting "Can") := by
  refine ⟨?_, ?_, ?_, ?_, ?_, ?_, ?_⟩
  · intro h1
    simp [detectIntent, h1]
  · intro h1 h2
    simp [detectIntent, h1, h2]
  · intro h1 h2 h3
    simp [detectIntent, h1, h2, h3]
  · intro h1 h2 h3 h4
    simp [detectIntent, h1, h2, h3, h4]
  · intro h1 h2 h3 h4 h5
    simp [detectIntent, h1, h2, h3, h4, h5]
  · intro h1 h2 h3 h4 h5
    simp [detectIntent, h1, h2, h3, h4, h5]
  · rintro rfl
    exact ⟨by decide, by decide⟩

/-- Claim C5, witness: the boundary email instantiated concretely. -/
theorem c5_intent_precedence_witness :
    detectIntent "Can we schedule a call tomorrow?" = "meeting_request" ∧
    generate_smart_email_response "Can we schedule a call tomorrow?" "friendly" =
      friendly_meeting "Can" :=
  (c5_intent_precedence "Can we schedule a call tomorrow?").2.2.2.2.2.2 rfl

/-- Claim C6, counterexample: on "Hi, I wanted to ask when the shipment will
arrive?" with tone "professional" the offline engine fills the question
template with addressee "Hi" (the greeting word is a capitalized token), not
"there" as the claim asserts. -/
theorem c6_counterexample_addressee_hi :
    generate_smart_email_response "Hi, I wanted to ask when the shipment will arrive?"
      "professional" = prof_question "Hi" ∧
    prof_question "Hi" ≠ prof_question "there" := by
  exact ⟨by decide, by decide⟩

/-- Claim C6, amended: with the remote path disabled (throttled session), the
pipeline returns the professional/question template populated with addressee
"Hi" — the first capitalized token of the text is the greeting word "Hi", so
the default "there" is not used; the default applies only when the text has no
capitalized token, as in the lower-case variant. -/
theorem c6_amended_question_template_hi :
    (generate_email_response envRL ⟨some 3, none⟩
        "Hi, I wanted to ask when the shipment will arrive?" "professional" 2 true).ret =
      some (prof_question "Hi") ∧
    extractSenderName "Hi, I wanted to ask when the shipment will arrive?" = "Hi" ∧
    extractSenderName "hello, when will the shipment arrive?" = "there" := by
  exact ⟨by decide, by decide, by decide⟩

/-- Claim C7: tone resolution of the offline engine — an unrecognized (or
blank, since `lowerStr "" = ""`) tone key behaves exactly like "professional";
a recognized tone ("friendly") lacking a template for the detected intent
falls back to that tone's "general" template; and at the pipeline level a
blank tone is replaced by "professional" before generation. -/
theorem c7_tone_resolution (env : Env) (st : SessionState) (e t : String)
    (mr : Nat) (fb : Bool) :
    (lowerStr t ≠ "professional" → lowerStr t ≠ "friendly" →
      generate_smart_email_response e t = generate_smart_email_response e "professional") ∧
    (lowerStr t = "friendly" →
      (detectIntent e = "complaint" ∨ detectIntent e = "request" ∨
        detectIntent e = "thank_you") →
      generate_smart_email_response e t = friendly_general (extractSenderName e)) ∧
    (isBlank t = true →
      generate_email_response env st e t mr fb =
        generate_email_response env st e "professional" mr fb) := by
  refine ⟨?_, ?_, ?_⟩
  · intro h1 h2
    unfold generate_smart_email_response
    rw [pickResponse_unrec _ _ _ h1 h2]
    rfl
  · intro h1 h2
    unfold generate_smart_email_response
    rw [h1]
    rcases h2 with h|h|h <;> rw [h] <;> rfl
  · intro hbt
    have hp : isBlank "professional" = false := rfl
    unfold generate_email_response
    rw [hbt, hp]
    simp

/-- Claim C7, witness: each tone-resolution rule at a concrete input. -/
theorem c7_tone_resolution_witness :
    generate_smart_email_response "hello" "casual" =
      generate_smart_email_response "hello" "professional" ∧
    generate_smart_email_response "please send the file" "Friendly" =
      friendly_general (extractSenderName "please send the file") ∧
    generate_email_response envRL st0 "Hello" "" 2 true =
      generate_email_response envRL st0 "Hello" "professional" 2 true :=
  ⟨(c7_tone_resolution envRL st0 "hello" "casual" 2 true).1 (by decide) (by decide),
   (c7_tone_resolution envRL st0 "please send the file" "Friendly" 2 true).2.1 (by decide)
     (Or.inr (Or.inl (by decide))),
   (c7_tone_resolution envRL st0 "Hello" "" 2 true).2.2 (by decide)⟩

/-- Claim C8, counterexample: the sanitizer is not idempotent on every string —
a text that repeats the boilerplate prefix twice loses one copy per
application, so the second application changes the result again. -/
theorem c8_counterexample_not_idempotent :
    sanitize (sanitize
      "Here is a potential reply to the email:\nHere is a potential reply to the email:\nDear Sam, thanks!"
      none) none ≠
    sanitize
      "Here is a potential reply to the email:\nHere is a potential reply to the email:\nDear Sam, thanks!"
      none := by
  decide

/-- Claim C8, amended (the sanitizer is modelled from the spec): sanitize is
idempotent on every input whose sanitized result does not itself begin with a
strip-list phrase and, when a sender name is supplied, no placeholder token
remains in the sanitized result. -/
theorem c8_amended_sanitize_idempotent (x : String) (name : Option String)
    (h1 : ∀ p ∈ stripPhrases, p.data.isPrefixOf (sanitize x name).data = false)
    (h2 : name = none ∨ containsStr (sanitize x name) placeholderToken = false) :
    sanitize (sanitize x name) name = sanitize x name := by
  set y := sanitize x name with hy
  have hfind : stripPhrases.find? (fun p => p.data.isPrefixOf y.data) = none :=
    List.find?_eq_none.mpr (fun p hp => by simp [h1 p hp])
  have hstrip : stripOnce y = y := by
    unfold stripOnce
    rw [hfind]
  rcases h2 with rfl | h2
  · exact hstrip
  · cases name with
    | none => exact hstrip
    | some n =>
      show (if containsStr (stripOnce y) placeholderToken then
          (stripOnce y).replace placeholderToken n else stripOnce y) = y
      rw [hstrip, h2]
      simp

/-- Claim C8, witness: idempotence at a sample raw output that carries the
boilerplate prefix once and no placeholder token. -/
theorem c8_amended_sanitize_idempotent_witness :
    sanitize (sanitize "Here is a potential reply to the email:\nDear Sam, thanks!"
        (some "Sam Lee")) (some "Sam Lee") =
      sanitize "Here is a potential reply to the email:\nDear Sam, thanks!" (some "Sam Lee") :=
  c8_amended_sanitize_idempotent _ _ (by decide) (Or.inr (by decide))

/-- Claim C9, counterexample: within the 60-second spacing window, with the
fallback enabled but blank email text, the call returns `None`, not the
offline template result, so the claim fails as stated on that input. -/
theorem c9_counterexample_blank_input :
    (generate_email_response envRL ⟨none, some 0⟩ "" "professional" 2 true).ret ≠
      some (generate_smart_email_response "" "professional") := by
  decide

/-- Claim C9, amended: provided the email text is non-blank, whenever less
than 60 seconds have elapsed since `last_request_time`, the call issues no
completion request, never sleeps, and (with the fallback enabled) immediately
returns the offline template result. -/
theorem c9_amended_spacing_floor (env : Env) (st : SessionState)
    (email_text tone : String) (mr : Nat) (fb : Bool) (t : ℤ)
    (hl : st.last_request_time = some t) (ht : env.now - t < 60)
    (hmail : isBlank email_text = false) (hfb : fb = true) :
    (generate_email_response env st email_text tone mr fb).apiCalls = 0 ∧
    (generate_email_response env st email_text tone mr fb).sleeps = [] ∧
    (generate_email_response env st email_text tone mr fb).ret =
      some (generate_smart_email_response email_text
        (if isBlank tone then "professional" else tone)) := by
  subst hfb
  unfold generate_email_response
  by_cases h3 : failuresAtLeast3 st.consecutive_failures
  · simp [hmail, h3]
  · simp [hmail, h3, hl, ht]

/-- Claim C9, witness for the amended theorem at a concrete input. -/
theorem c9_amended_spacing_floor_witness :
    (generate_email_response envRL ⟨none, some 0⟩ "Hello" "professional" 2 true).apiCalls = 0 ∧
    (generate_email_response envRL ⟨none, some 0⟩ "Hello" "professional" 2 true).sleeps = [] ∧
    (generate_email_response envRL ⟨none, some 0⟩ "Hello" "professional" 2 true).ret =
      some (generate_smart_email_response "Hello"
        (if isBlank "professional" then "professional" else "professional")) :=
  c9_amended_spacing_floor envRL ⟨none, some 0⟩ "Hello" "professional" 2 true 0
    rfl (by decide) (by decide) rfl

/-- Claim C10: for every email text and tone, the offline generator's output
begins with the literal "Subject: Re:" and ends with the literal unfilled
placeholder "[Your Name]". -/
theorem c10_subject_and_placeholder (e t : String) :
    "Subject: Re:".data <+: (generate_smart_email_response e t).data ∧
    "[Your Name]".data <:+ (generate_smart_email_response e t).data :=
  smart_affix e t
